import Mathlib

/-!
Verification of the cross-environment task dispatch and handle-lifecycle
subsystem of isolated-vm (src/isolate_handle.cc), via a shallow embedding
of the relevant classes and functions into Lean.

Conventions:
* `size_t` quantities are modelled as `Nat`.  The sums computed by the
  bounded allocator stay far below `2 ^ 64` in any run of the program
  (they are heap byte counts), so unsigned overflow is not modelled.
* Calls into the engine (v8) and into other translation units of the
  repository are modelled as explicit oracle inputs: for example the
  value returned by `GetHeapStatistics().total_heap_size()` is a `Nat`
  parameter of `LimitedAllocator.Check`.
-/

namespace Ivm

/-- State of `LimitedAllocator` (src/isolate_handle.cc lines 67-119):
`limit`, `v8_heap`, `my_heap`, `next_check`, all `size_t`. -/
structure LimitedAllocator where
  limit : Nat
  v8_heap : Nat
  my_heap : Nat
  next_check : Nat
deriving DecidableEq

/-- The constructor `LimitedAllocator(size_t limit)` : `v8_heap` starts at
4 MB, `my_heap` at 0, `next_check` at 1 MB. -/
def LimitedAllocator.init (limit : Nat) : LimitedAllocator :=
  { limit := limit, v8_heap := 1024 * 1024 * 4, my_heap := 0, next_check := 1024 * 1024 }

/-- `LimitedAllocator::Check(const size_t length)`.  The parameter `q` is the
oracle value `heap_statistics.total_heap_size()` obtained from
`Isolate::GetCurrent()->GetHeapStatistics(...)` when the watermark forces a
re-query.  Returns the boolean result together with the updated state.  The
C++ early `return false` inside the re-query branch is unrolled into nested
conditionals; note the state mutation `v8_heap = ...` happens before that
early return, which the translation preserves. -/
def LimitedAllocator.Check (a : LimitedAllocator) (length q : Nat) : Bool × LimitedAllocator :=
  if a.v8_heap + a.my_heap + length > a.next_check then
    if q + a.my_heap + length > a.limit then
      (false, { a with v8_heap := q })
    else
      if q + a.my_heap + length > a.limit then
        (false, { a with v8_heap := q, next_check := q + a.my_heap + length + 1024 * 1024 })
      else
        (true, { a with v8_heap := q, my_heap := a.my_heap + length, next_check := q + a.my_heap + length + 1024 * 1024 })
  else
    if a.v8_heap + a.my_heap + length > a.limit then
      (false, a)
    else
      (true, { a with my_heap := a.my_heap + length })

/-- `LimitedAllocator::Allocate` / `AllocateUninitialized`: return a non-null
pointer (modelled `some ()`, the `calloc`/`malloc` result) when `Check`
passes, the null "no memory" signal (`none`) otherwise. -/
def LimitedAllocator.Allocate (a : LimitedAllocator) (length q : Nat) :
    Option Unit × LimitedAllocator :=
  match a.Check length q with
  | (true, a1) => (some (), a1)
  | (false, a1) => (none, a1)

/-- `LimitedAllocator::Free(void* data, size_t length)`: decrements `my_heap`
and `next_check` by the freed size (the engine only frees what it allocated,
so the subtraction never underflows in a real run; `Nat` subtraction is
truncated). -/
def LimitedAllocator.Free (a : LimitedAllocator) (length : Nat) : LimitedAllocator :=
  { a with my_heap := a.my_heap - length, next_check := a.next_check - length }

/-- `LimitedAllocator::GetAllocatedSize()`. -/
def LimitedAllocator.GetAllocatedSize (a : LimitedAllocator) : Nat := a.my_heap

/-- The engine-heap estimate `Check` actually decides with: the freshly
re-queried statistic `q` when the watermark forces a re-query, the cached
`v8_heap` otherwise. -/
def LimitedAllocator.effectiveHeap (a : LimitedAllocator) (length q : Nat) : Nat :=
  if a.v8_heap + a.my_heap + length > a.next_check then q else a.v8_heap

/-- Errors thrown by the handle layer (`js_generic_error`, `js_type_error`). -/
inductive IvmError where
  | genericError (msg : String)
  | typeError (msg : String)
deriving DecidableEq

/-- Value found at the `memoryLimit` property of the options object passed to
`IsolateHandle::New`: absent (`IsUndefined`), present but not a number, or a
number (modelled after the `(size_t)` cast of its `double` value). -/
inductive OptVal where
  | undefinedVal
  | notNumber
  | num (n : Nat)
deriving DecidableEq

/-- The options object of `IsolateHandle::New` (src/isolate_handle.cc lines
155-196).  The `snapshot` field stands for an already validated
`ExternalCopyArrayBuffer` (an opaque blob id); the type errors its parsing
can raise are outside the claims under verification. -/
structure IsolateOptions where
  memoryLimit : OptVal
  snapshot : Option Nat
  inspector : Bool
deriving DecidableEq

/-- What `IsolateHandle::New` hands to `IsolateEnvironment::New` on success:
the memory limit in MB, the derived generation-sizing knobs, the freshly
constructed `LimitedAllocator`, the optional snapshot blob and the inspector
flag.  `maxSemiSpace` uses the 64-bit branch of
`sizeof(void*) >= 8 ? 4 : 3`. -/
structure IsolateConfig where
  memoryLimit : Nat
  maxSemiSpace : Nat
  maxOldSpace : Nat
  allocator : LimitedAllocator
  snapshot : Option Nat
  inspector : Bool
deriving DecidableEq

/-- `IsolateHandle::New(MaybeLocal<Object> maybe_options)`
(src/isolate_handle.cc lines 155-209): parse `memoryLimit` (default 128,
error on non-number, error below 8), take the snapshot and inspector
options, then derive the resource constraints and build the allocator. -/
def isolateNew (opts : Option IsolateOptions) : Except IvmError IsolateConfig := do
  let memory_limit : Nat ←
    match opts with
    | none => pure 128
    | some o =>
      match o.memoryLimit with
      | OptVal.undefinedVal => pure 128
      | OptVal.notNumber => throw (IvmError.genericError "`memoryLimit` must be a number")
      | OptVal.num n =>
        if n < 8 then throw (IvmError.genericError "`memoryLimit` must be at least 8")
        else pure n
  let snapshot : Option Nat := match opts with | none => none | some o => o.snapshot
  let inspector : Bool := match opts with | none => false | some o => o.inspector
  pure
    { memoryLimit := memory_limit
      maxSemiSpace := 2 ^ (min 4 (memory_limit / 128))
      maxOldSpace := memory_limit * 2
      allocator := LimitedAllocator.init (memory_limit * 1024 * 1024)
      snapshot := snapshot
      inspector := inspector }

/-- `IsolateHandle::CreateInspectorSession()` (src/isolate_handle.cc lines
398-410).  `selfCall` models `IsolateEnvironment::GetCurrentHolder() ==
isolate`; `env` models `isolate->GetIsolate()` (`none` once the isolate is
disposed), carrying whether `GetInspectorAgent()` is non-null.  The function
is fully synchronous: no task is scheduled on any environment, and the
session handle (`.ok`) is only produced on the fall-through path. -/
def createInspectorSession (selfCall : Bool) (env : Option Bool) : Except IvmError Unit :=
  if selfCall then
    Except.error (IvmError.genericError "An isolate is not debuggable from within itself")
  else
    match env with
    | none => Except.error (IvmError.genericError "Isolate is diposed")
    | some hasAgent =>
      if hasAgent = false then
        Except.error (IvmError.genericError "Inspector is not enabled for this isolate")
      else
        Except.ok ()

/-- Modelled from the spec: the declaration of `IsolateHolder::ScheduleTask`
is not under src (only this call site is).  The spec gives the schedule
contract as `schedule(task, run_inline_if_current, requires_heap_scope)`, so
the second and third boolean arguments of the source call
`ScheduleTask(std::make_unique<ContextDisposer>(...), true, false)` are
modelled as `runInline` and `requiresHeapScope`. -/
structure ScheduleCall where
  taskHasInspector : Bool
  runInline : Bool
  requiresHeapScope : Bool
deriving DecidableEq

/-- Outcome of `ContextDeleter::operator()` (src/isolate_handle.cc lines
242-266).  `freedInline` is the action the deleter never takes (resetting or
destroying the persistent on the releasing thread); `nothingFurther` is the
branch where the weak upgrade fails; `scheduled` is the `ScheduleTask`
branch. -/
inductive DeleterResult where
  | freedInline
  | nothingFurther
  | scheduled (call : ScheduleCall)
deriving DecidableEq

/-- `ContextDeleter::operator()(Persistent<Context>* ptr)`: wrap the pointer,
attempt `isolate.lock()`; on success schedule a `ContextDisposer` with the
literal flags `(true, false)`, otherwise do nothing further (the persistent
container is destroyed without touching the v8 reference). -/
def contextDeleter (isolateAlive hasInspector : Bool) : DeleterResult :=
  if isolateAlive then
    DeleterResult.scheduled
      { taskHasInspector := hasInspector, runInline := true, requiresHeapScope := false }
  else
    DeleterResult.nothingFurther

/-- The observable steps of `ContextDisposer::Run` (src/isolate_handle.cc
lines 249-259): creating the local handle from the persistent, calling
`Reset` on the persistent, notifying the inspector agent via
`ContextDestroyed`, and the final `ContextDisposedNotification` call on the
isolate. -/
inductive DisposeEvent where
  | makeLocalHandle
  | resetPersistent
  | notifyContextDestroyed
  | contextDisposedNotify
deriving DecidableEq

/-- `ContextDisposer::Run()`, as the sequence of steps it performs.  With an
inspector the code takes a local handle, resets the persistent, then
notifies the agent; in all cases it then resets the persistent (again) and
calls `ContextDisposedNotification`. -/
def contextDisposerRun (hasInspector : Bool) : List DisposeEvent :=
  (if hasInspector then
    [DisposeEvent.makeLocalHandle, DisposeEvent.resetPersistent,
     DisposeEvent.notifyContextDestroyed]
  else [])
  ++ [DisposeEvent.resetPersistent, DisposeEvent.contextDisposedNotify]

/-- The per-compile options read by the `CompileScriptRunner` constructor
(src/isolate_handle.cc lines 312-345): the optional `cachedData` blob (an
already validated `ExternalCopyArrayBuffer`, modelled as an opaque id) and
the `produceCachedData` flag. -/
structure CompileOptionsM where
  cachedData : Option Nat
  produceCachedData : Bool
deriving DecidableEq

/-- `ScriptCompiler::CompileOptions` values used by Phase2. -/
inductive CompileMode where
  | noCompileOptions
  | consumeCodeCache
  | produceCodeCache
deriving DecidableEq

/-- The `compile_options` selection of `CompileScriptRunner::Phase2`
(src/isolate_handle.cc lines 353-360): a supplied cache forces
`kConsumeCodeCache`; only otherwise does `produceCachedData` select
`kProduceCodeCache`. -/
def compileModeOf (o : CompileOptionsM) : CompileMode :=
  match o.cachedData with
  | some _ => CompileMode.consumeCodeCache
  | none =>
    if o.produceCachedData then CompileMode.produceCodeCache else CompileMode.noCompileOptions

/-- Oracle for the engine-side behaviour of
`ScriptCompiler::CompileUnboundScript`: whether the compile throws (`some`
thrown value), whether a consumed cache is marked rejected on the source,
and the blob produced under `kProduceCodeCache`. -/
structure CompilerOracle where
  failure : Option Nat
  rejected : Bool
  producedCache : Nat
deriving DecidableEq

/-- The runner fields set by `CompileScriptRunner::Phase2`
(src/isolate_handle.cc lines 366-375): `supplied_cached_data`,
`cached_data_rejected` and the (reset or freshly produced)
`cached_data_blob`. -/
structure CompileRunnerState where
  suppliedCachedData : Bool
  cachedDataRejected : Bool
  cachedDataBlob : Option Nat
deriving DecidableEq

/-- `CompileScriptRunner::Phase2` (src/isolate_handle.cc lines 347-376):
compile (which may throw, annotated, across the boundary), then record the
cache flags — with a supplied cache, `supplied_cached_data` is set and the
rejection bit copied from the source and the blob cleared; with
`produceCachedData`, the produced cache is stored. -/
def compileScriptPhase2 (o : CompileOptionsM) (oracle : CompilerOracle) :
    Except Nat CompileRunnerState :=
  match oracle.failure with
  | some t => Except.error t
  | none =>
    match o.cachedData with
    | some _ =>
      Except.ok
        { suppliedCachedData := true, cachedDataRejected := oracle.rejected,
          cachedDataBlob := none }
    | none =>
      if o.produceCachedData then
        Except.ok
          { suppliedCachedData := false, cachedDataRejected := false,
            cachedDataBlob := some oracle.producedCache }
      else
        Except.ok
          { suppliedCachedData := false, cachedDataRejected := false, cachedDataBlob := none }

/-- The properties `CompileScriptRunner::Phase3` sets on the returned
`Script` object (src/isolate_handle.cc lines 378-388). -/
structure ScriptObjectM where
  cachedDataRejected : Option Bool
  cachedData : Option Nat
deriving DecidableEq

/-- `CompileScriptRunner::Phase3`: set `cachedDataRejected` when a cache was
supplied, else set `cachedData` when a blob was produced, else neither. -/
def compileScriptPhase3 (st : CompileRunnerState) : ScriptObjectM :=
  if st.suppliedCachedData then
    { cachedDataRejected := some st.cachedDataRejected, cachedData := none }
  else
    match st.cachedDataBlob with
    | some b => { cachedDataRejected := none, cachedData := some b }
    | none => { cachedDataRejected := none, cachedData := none }

/-- `compileScript` end to end: Phase2 in the target isolate, Phase3 back in
the caller. -/
def compileScript (o : CompileOptionsM) (oracle : CompilerOracle) : Except Nat ScriptObjectM :=
  Except.map compileScriptPhase3 (compileScriptPhase2 o oracle)

/-- The two contexts of `IsolateHandle::CreateSnapshot`: the default context
handed to `SetDefaultContext`, and the throw-away dirty context. -/
inductive SnapCtx where
  | defaultCtx
  | dirtyCtx
deriving DecidableEq

/-- Observable steps of `IsolateHandle::CreateSnapshot`
(src/isolate_handle.cc lines 494-533): compiling a supplied script, running
its bound form, running its unbound form rebound to a context, compiling
and running the warmup script, and `AddContext(context)` on the default
context. -/
inductive SnapEvent where
  | compileScriptEv (ctx : SnapCtx) (s : Nat)
  | runScriptEv (ctx : SnapCtx) (s : Nat)
  | runUnboundEv (ctx : SnapCtx) (s : Nat)
  | compileWarmupEv (ctx : SnapCtx)
  | runWarmupEv (ctx : SnapCtx)
  | addDefaultContextEv
deriving DecidableEq

/-- Oracle for the engine-side outcomes inside `CreateSnapshot`: for each
context and script, whether `ScriptCompiler::Compile` and `Script::Run`
throw (`some` thrown value) or succeed (`none`); same for the run of the
rebound unbound script, and for the warmup compile and run; `blobSize` is
`snapshot.raw_size` from `CreateBlob`. -/
structure SnapshotOracle where
  compileRes : SnapCtx → Nat → Option Nat
  runRes : SnapCtx → Nat → Option Nat
  runUnboundRes : Nat → Option Nat
  warmupCompileRes : Option Nat
  warmupRunRes : Option Nat
  blobSize : Nat

/-- One iteration of the `for (auto& script : scripts)` loop: compile in
the default context, run there, then run the unbound form rebound to the
dirty context; a throw aborts the iteration with the thrown value. -/
def snapshotScriptStep (oracle : SnapshotOracle) (s : Nat) : List SnapEvent × Option Nat :=
  match oracle.compileRes SnapCtx.defaultCtx s with
  | some t => ([SnapEvent.compileScriptEv SnapCtx.defaultCtx s], some t)
  | none =>
    match oracle.runRes SnapCtx.defaultCtx s with
    | some t =>
      ([SnapEvent.compileScriptEv SnapCtx.defaultCtx s,
        SnapEvent.runScriptEv SnapCtx.defaultCtx s], some t)
    | none =>
      match oracle.runUnboundRes s with
      | some t =>
        ([SnapEvent.compileScriptEv SnapCtx.defaultCtx s,
          SnapEvent.runScriptEv SnapCtx.defaultCtx s,
          SnapEvent.runUnboundEv SnapCtx.dirtyCtx s], some t)
      | none =>
        ([SnapEvent.compileScriptEv SnapCtx.defaultCtx s,
          SnapEvent.runScriptEv SnapCtx.defaultCtx s,
          SnapEvent.runUnboundEv SnapCtx.dirtyCtx s], none)

/-- The whole script loop: a thrown value from any step aborts the loop
(the exception unwinds to the surrounding catch), otherwise the traces
concatenate in submission order. -/
def snapshotRunScripts (oracle : SnapshotOracle) : List Nat → List SnapEvent × Option Nat
  | [] => ([], none)
  | s :: rest =>
    match snapshotScriptStep oracle s with
    | (ev, some t) => (ev, some t)
    | (ev, none) =>
      match snapshotRunScripts oracle rest with
      | (ev2, r) => (ev ++ ev2, r)

/-- The try-block body of `CreateSnapshot`: the script loop, then (when no
script threw) the warmup compile and run against the dirty context if the
warmup source is non-empty, then `AddContext` on the default context. -/
def snapshotBody (oracle : SnapshotOracle) (scripts : List Nat) (warmup_script : String) :
    List SnapEvent × Option Nat :=
  match snapshotRunScripts oracle scripts with
  | (ev, some t) => (ev, some t)
  | (ev, none) =>
    if warmup_script.length ≠ 0 then
      match oracle.warmupCompileRes with
      | some t => (ev ++ [SnapEvent.compileWarmupEv SnapCtx.dirtyCtx], some t)
      | none =>
        match oracle.warmupRunRes with
        | some t =>
          (ev ++ [SnapEvent.compileWarmupEv SnapCtx.dirtyCtx,
                  SnapEvent.runWarmupEv SnapCtx.dirtyCtx], some t)
        | none =>
          (ev ++ [SnapEvent.compileWarmupEv SnapCtx.dirtyCtx,
                  SnapEvent.runWarmupEv SnapCtx.dirtyCtx,
                  SnapEvent.addDefaultContextEv], none)
    else (ev ++ [SnapEvent.addDefaultContextEv], none)

/-- Modelled from the spec: `ExternalCopy::CopyIfPrimitiveOrError` lives in
external_copy.cc, which is not under src (only this call site is).  The spec
says an exception during the build is "surfaced as a typed error carrying a
copy of the thrown value", so the copy is modelled as total. -/
def copyIfPrimitiveOrError (t : Nat) : Option Nat := some t

/-- Result of `CreateSnapshot` as seen by the caller: a re-thrown copy of
the error, the generic "Failure creating snapshot" error on a zero-length
image, or the serialized image as a caller-owned buffer. -/
inductive SnapResult where
  | threw (copied : Nat)
  | genericError (msg : String)
  | okBuffer (size : Nat)
deriving DecidableEq

/-- `IsolateHandle::CreateSnapshot` (src/isolate_handle.cc lines 488-556)
after input marshalling: run the body; when an error was captured, throw its
copy; otherwise call `CreateBlob` and fail on a zero-length image or return
the buffer.  The branch where the error copy is null mirrors the
`if (!error)` guard in the source. -/
def createSnapshot (oracle : SnapshotOracle) (scripts : List Nat) (warmup : Option String) :
    List SnapEvent × SnapResult :=
  match snapshotBody oracle scripts (warmup.getD "") with
  | (ev, some t) =>
    match copyIfPrimitiveOrError t with
    | some e => (ev, SnapResult.threw e)
    | none =>
      if oracle.blobSize = 0 then (ev, SnapResult.genericError "Failure creating snapshot")
      else (ev, SnapResult.okBuffer oracle.blobSize)
  | (ev, none) =>
    if oracle.blobSize = 0 then (ev, SnapResult.genericError "Failure creating snapshot")
    else (ev, SnapResult.okBuffer oracle.blobSize)

/-- The trace `CreateSnapshot` produces when nothing throws: for each script
in submission order a default-context compile, a default-context run and a
dirty-context run of the unbound form; then the warmup steps against the
dirty context when the warmup source is non-empty; then `AddContext`. -/
def snapshotCanonicalTrace (scripts : List Nat) (warmup_script : String) : List SnapEvent :=
  List.flatten (scripts.map fun s =>
    [SnapEvent.compileScriptEv SnapCtx.defaultCtx s,
     SnapEvent.runScriptEv SnapCtx.defaultCtx s,
     SnapEvent.runUnboundEv SnapCtx.dirtyCtx s])
  ++ (if warmup_script.length ≠ 0 then
      [SnapEvent.compileWarmupEv SnapCtx.dirtyCtx, SnapEvent.runWarmupEv SnapCtx.dirtyCtx,
       SnapEvent.addDefaultContextEv]
    else [SnapEvent.addDefaultContextEv])

end Ivm

namespace Ivm

/-- Claim C2: an allocation request whose length would make the attributed
total (engine heap estimate at decision time, plus externally tracked bytes,
plus the requested length) exceed the limit returns the null "no memory"
signal, and after any successful allocation the attributed running total
(`v8_heap + my_heap`) does not exceed the limit. -/
theorem c2_limit_invariant (a : LimitedAllocator) (length q : Nat) :
    (a.effectiveHeap length q + a.my_heap + length > a.limit →
      (a.Allocate length q).1 = none)
    ∧ ((a.Allocate length q).1 = some () →
      (a.Allocate length q).2.v8_heap + (a.Allocate length q).2.my_heap ≤ a.limit) := by
  constructor
  · intro h
    unfold LimitedAllocator.effectiveHeap at h
    unfold LimitedAllocator.Allocate LimitedAllocator.Check
    split_ifs at h ⊢ <;> rfl
  · intro h
    unfold LimitedAllocator.Allocate LimitedAllocator.Check at h ⊢
    split_ifs at h ⊢ <;> simp_all <;> omega

/-- Witness for C2 at concrete inputs: an 8 MB allocator refuses a 16 MB
request, and a successful 1000-byte allocation on a 128 MB allocator leaves
the attributed total within the limit. -/
theorem c2_witness :
    ((LimitedAllocator.init (8 * 1024 * 1024)).Allocate (16 * 1024 * 1024) (4 * 1024 * 1024)).1 = none
    ∧ ((LimitedAllocator.init (128 * 1024 * 1024)).Allocate 1000 (2 * 1024 * 1024)).2.v8_heap
      + ((LimitedAllocator.init (128 * 1024 * 1024)).Allocate 1000 (2 * 1024 * 1024)).2.my_heap
      ≤ 128 * 1024 * 1024 :=
  ⟨(c2_limit_invariant (LimitedAllocator.init (8 * 1024 * 1024)) (16 * 1024 * 1024) (4 * 1024 * 1024)).1 (by decide),
   (c2_limit_invariant (LimitedAllocator.init (128 * 1024 * 1024)) 1000 (2 * 1024 * 1024)).2 (by decide)⟩

/-- Claim C7, counterexample: the claim asserts a zero-length allocation
succeeds in every allocator state.  In the initial state of an 8 MB
allocator, a zero-length request triggers the watermark re-query; when the
engine reports a 9 MB heap, `Check` stores the new estimate and returns
false, so `Allocate(0)` returns the null "no memory" signal. -/
theorem c7_counterexample :
    ((LimitedAllocator.init (8 * 1024 * 1024)).Allocate 0 (9 * 1024 * 1024)).1 = none := by
  decide

/-- Claim C7 as amended: a zero-length allocation succeeds whenever the
attributed total at decision time (engine heap estimate after any re-query,
plus externally tracked bytes) does not exceed the limit; in particular it
succeeds when usage has exactly reached the limit. -/
theorem c7_amended (a : LimitedAllocator) (q : Nat)
    (h : a.effectiveHeap 0 q + a.my_heap ≤ a.limit) :
    (a.Allocate 0 q).1 = some () := by
  unfold LimitedAllocator.effectiveHeap at h
  unfold LimitedAllocator.Allocate LimitedAllocator.Check
  split_ifs at h ⊢ <;> first | rfl | (exfalso; omega)

/-- Witness for C7 as amended, at a concrete input where the attributed
total sits exactly at the limit. -/
theorem c7_witness :
    (LimitedAllocator.mk (8 * 1024 * 1024) (8 * 1024 * 1024) 0 (9 * 1024 * 1024)).effectiveHeap 0 0
      + (LimitedAllocator.mk (8 * 1024 * 1024) (8 * 1024 * 1024) 0 (9 * 1024 * 1024)).my_heap
      ≤ 8 * 1024 * 1024
    ∧ ((LimitedAllocator.mk (8 * 1024 * 1024) (8 * 1024 * 1024) 0 (9 * 1024 * 1024)).Allocate 0 0).1 = some () :=
  ⟨by decide, c7_amended (LimitedAllocator.mk (8 * 1024 * 1024) (8 * 1024 * 1024) 0 (9 * 1024 * 1024)) 0 (by decide)⟩

/-- Claim C1, counterexample: the claim states that when the upgrade of the
weak holder succeeds, the deleter schedules the disposal Runnable with
`run_inline=true` and `requires_heap_scope=true`.  With the isolate alive
and no inspector, the source call passes `(true, false)`: the third flag is
false, not true. -/
theorem c1_counterexample :
    contextDeleter true false
      = DeleterResult.scheduled
          { taskHasInspector := false, runInline := true, requiresHeapScope := false }
    ∧ contextDeleter true false
      ≠ DeleterResult.scheduled
          { taskHasInspector := false, runInline := true, requiresHeapScope := true } := by
  decide

/-- Claim C1 as amended: the deleter never frees the native context
reference inline; when the weak upgrade fails nothing further happens; when
it succeeds, a one-shot disposal Runnable is scheduled onto the owning
environment with `run_inline=true` and `requires_heap_scope=false` (the
source passes `false` as the third argument of `ScheduleTask`). -/
theorem c1_amended (alive hasInspector : Bool) :
    contextDeleter alive hasInspector ≠ DeleterResult.freedInline
    ∧ contextDeleter alive hasInspector
      = (if alive then
          DeleterResult.scheduled
            { taskHasInspector := hasInspector, runInline := true, requiresHeapScope := false }
        else DeleterResult.nothingFurther) := by
  cases alive <;> cases hasInspector <;> exact ⟨by decide, rfl⟩

/-- Claim C3, counterexample: the claim states the disposal Runnable
notifies the inspection session of the destruction of the context before
releasing the native context reference.  The actual run trace for a context
with an inspector resets the persistent reference at position 1, before the
notification at position 2: a reset occurs among the first two steps and no
notification does. -/
theorem c3_counterexample :
    contextDisposerRun true
      = [DisposeEvent.makeLocalHandle, DisposeEvent.resetPersistent,
         DisposeEvent.notifyContextDestroyed, DisposeEvent.resetPersistent,
         DisposeEvent.contextDisposedNotify]
    ∧ DisposeEvent.resetPersistent ∈ (contextDisposerRun true).take 2
    ∧ DisposeEvent.notifyContextDestroyed ∉ (contextDisposerRun true).take 2 := by
  decide

/-- Claim C3 as amended: for a context with an active inspection session,
the disposal Runnable first takes a local handle to the context (keeping it
alive), resets the persistent native reference, only then notifies the
session of the destruction of the context, and finally resets again and
issues the context-disposed notification; without a session it just resets
and notifies the isolate. -/
theorem c3_amended :
    contextDisposerRun true
      = [DisposeEvent.makeLocalHandle, DisposeEvent.resetPersistent,
         DisposeEvent.notifyContextDestroyed, DisposeEvent.resetPersistent,
         DisposeEvent.contextDisposedNotify]
    ∧ contextDisposerRun false
      = [DisposeEvent.resetPersistent, DisposeEvent.contextDisposedNotify] :=
  ⟨rfl, rfl⟩

/-- Claim C8: `IsolateHandle::New` defaults the memory limit to 128 MB when
`memoryLimit` is absent (options object missing or field undefined),
rejects a non-numeric `memoryLimit` with an error, and rejects a value
below the 8 MB floor with an error — in each error case no configuration
(and hence no environment or allocator) is produced. -/
theorem c8_memory_limit_validation (snap : Option Nat) (insp : Bool) :
    ((isolateNew none).map IsolateConfig.memoryLimit = Except.ok 128)
    ∧ ((isolateNew (some ⟨OptVal.undefinedVal, snap, insp⟩)).map IsolateConfig.memoryLimit
        = Except.ok 128)
    ∧ (isolateNew (some ⟨OptVal.notNumber, snap, insp⟩)
        = Except.error (IvmError.genericError "`memoryLimit` must be a number"))
    ∧ (∀ n, n < 8 → isolateNew (some ⟨OptVal.num n, snap, insp⟩)
        = Except.error (IvmError.genericError "`memoryLimit` must be at least 8")) := by
  refine ⟨rfl, rfl, rfl, fun n hn => ?_⟩
  unfold isolateNew
  simp [if_pos hn]
  rfl

/-- Witness for C8 at concrete inputs: `memoryLimit = 7` is rejected, and an
absent options object yields the 128 MB default. -/
theorem c8_witness :
    (isolateNew (some ⟨OptVal.num 7, none, false⟩)
      = Except.error (IvmError.genericError "`memoryLimit` must be at least 8"))
    ∧ ((isolateNew none).map IsolateConfig.memoryLimit = Except.ok 128) :=
  ⟨(c8_memory_limit_validation none false).2.2.2 7 (by decide),
   (c8_memory_limit_validation none false).1⟩

/-- Claim C9: `CreateInspectorSession` fails synchronously with a defined
error, producing no session, in three cases checked in this order: called
from within the target isolate itself (whatever the state of the isolate),
target isolate already disposed, and inspector not enabled at creation; in
the remaining case it returns the session handle. -/
theorem c9_inspector_session_errors :
    (∀ env, createInspectorSession true env
      = Except.error (IvmError.genericError "An isolate is not debuggable from within itself"))
    ∧ (createInspectorSession false none
      = Except.error (IvmError.genericError "Isolate is diposed"))
    ∧ (createInspectorSession false (some false)
      = Except.error (IvmError.genericError "Inspector is not enabled for this isolate"))
    ∧ (createInspectorSession false (some true) = Except.ok ()) := by
  refine ⟨fun env => ?_, rfl, rfl, rfl⟩
  cases env <;> rfl

/-- Claim C4: when `compileScript` is given a `cachedData` option and the
compile succeeds, cache rejection is not an error — the result is a
successful `Script` object carrying the boolean `cachedDataRejected` flag
with exactly the rejection status the compiler reported (and no fresh
`cachedData`). -/
theorem c4_cache_rejection_reported (o : CompileOptionsM) (oracle : CompilerOracle) (b : Nat)
    (hb : o.cachedData = some b) (hok : oracle.failure = none) :
    compileScript o oracle
      = Except.ok { cachedDataRejected := some oracle.rejected, cachedData := none } := by
  unfold compileScript compileScriptPhase2 compileScriptPhase3
  rw [hok, hb]
  rfl

/-- Witness for C4 at a concrete input: a supplied cache that the compiler
marks rejected still yields a successful compile reporting
`cachedDataRejected = true`. -/
theorem c4_witness :
    compileScript { cachedData := some 7, produceCachedData := false }
        { failure := none, rejected := true, producedCache := 0 }
      = Except.ok { cachedDataRejected := some true, cachedData := none } :=
  c4_cache_rejection_reported
    { cachedData := some 7, produceCachedData := false }
    { failure := none, rejected := true, producedCache := 0 } 7 rfl rfl

/-- Phase3 of `CompileScriptRunner` sets at most one of the two cache
properties on the returned object, whatever the runner state. -/
theorem compileScriptPhase3_not_both (st : CompileRunnerState) :
    ¬((compileScriptPhase3 st).cachedDataRejected.isSome
      ∧ (compileScriptPhase3 st).cachedData.isSome) := by
  cases hs : st.suppliedCachedData <;> rcases hb : st.cachedDataBlob with _ | b <;>
    simp [compileScriptPhase3, hs, hb]

/-- Claim C10: `cachedData` takes precedence over `produceCachedData` — with
both options given the compiler consumes the supplied cache
(`kConsumeCodeCache`) and the successful result carries `cachedDataRejected`
but no fresh `cachedData`; and in general a returned `Script` object carries
at most one of the two properties. -/
theorem c10_cache_precedence (oracle : CompilerOracle) (b : Nat)
    (hok : oracle.failure = none) :
    compileModeOf { cachedData := some b, produceCachedData := true }
      = CompileMode.consumeCodeCache
    ∧ compileScript { cachedData := some b, produceCachedData := true } oracle
      = Except.ok { cachedDataRejected := some oracle.rejected, cachedData := none }
    ∧ (∀ o r, compileScript o oracle = Except.ok r →
        ¬(r.cachedDataRejected.isSome ∧ r.cachedData.isSome)) := by
  refine ⟨rfl, ?_, ?_⟩
  · unfold compileScript compileScriptPhase2 compileScriptPhase3
    rw [hok]
    rfl
  · intro o r hr
    unfold compileScript at hr
    cases hp2 : compileScriptPhase2 o oracle with
    | error t => rw [hp2] at hr; exact absurd hr (by simp [Except.map])
    | ok st =>
      rw [hp2] at hr
      simp [Except.map] at hr
      rw [← hr]
      exact compileScriptPhase3_not_both st

/-- Witness for C10 at a concrete input: with both `cachedData` and
`produceCachedData` supplied, the result reports the rejection flag and no
produced cache, and indeed carries at most one of the two properties. -/
theorem c10_witness :
    compileScript { cachedData := some 5, produceCachedData := true }
        { failure := none, rejected := false, producedCache := 3 }
      = Except.ok { cachedDataRejected := some false, cachedData := none }
    ∧ ¬((ScriptObjectM.mk (some false) none).cachedDataRejected.isSome
        ∧ (ScriptObjectM.mk (some false) none).cachedData.isSome) :=
  ⟨(c10_cache_precedence { failure := none, rejected := false, producedCache := 3 } 5 rfl).2.1,
   (c10_cache_precedence { failure := none, rejected := false, producedCache := 3 } 5 rfl).2.2
     { cachedData := some 5, produceCachedData := true }
     (ScriptObjectM.mk (some false) none)
     ((c10_cache_precedence { failure := none, rejected := false, producedCache := 3 } 5 rfl).2.1)⟩

/-- When no engine step throws, the script loop of `CreateSnapshot` produces
the three-event block for every script in submission order. -/
theorem snapshotRunScripts_ok (oracle : SnapshotOracle)
    (h1 : ∀ c s, oracle.compileRes c s = none)
    (h2 : ∀ c s, oracle.runRes c s = none)
    (h3 : ∀ s, oracle.runUnboundRes s = none) :
    ∀ scripts, snapshotRunScripts oracle scripts
      = (List.flatten (scripts.map fun s =>
          [SnapEvent.compileScriptEv SnapCtx.defaultCtx s,
           SnapEvent.runScriptEv SnapCtx.defaultCtx s,
           SnapEvent.runUnboundEv SnapCtx.dirtyCtx s]), none) := by
  intro scripts
  induction scripts with
  | nil => rfl
  | cons s rest ih => simp [snapshotRunScripts, snapshotScriptStep, h1, h2, h3, ih]

/-- The warmup steps of the canonical snapshot trace never target the
default context. -/
theorem warmupDefault_not_mem_canonical (scripts : List Nat) (ws : String) :
    SnapEvent.compileWarmupEv SnapCtx.defaultCtx ∉ snapshotCanonicalTrace scripts ws
    ∧ SnapEvent.runWarmupEv SnapCtx.defaultCtx ∉ snapshotCanonicalTrace scripts ws := by
  unfold snapshotCanonicalTrace
  constructor <;>
  · intro hmem
    rcases List.mem_append.mp hmem with hmem | hmem
    · rcases List.mem_flatten.mp hmem with ⟨l, hl, hm⟩
      rcases List.mem_map.mp hl with ⟨s, hs, rfl⟩
      simp at hm
    · by_cases hw : ws.length ≠ 0
      · rw [if_pos hw] at hmem
        simp at hmem
      · rw [if_neg hw] at hmem
        simp at hmem

/-- Claim C5: when nothing throws, `CreateSnapshot` compiles and runs each
supplied script once against the default context and re-runs only its
already-compiled unbound form against the dirty context, in submission
order; a supplied non-empty warmup script is compiled and run only against
the dirty context, never against the default one. -/
theorem c5_snapshot_script_order (oracle : SnapshotOracle) (scripts : List Nat)
    (warmup : Option String)
    (h1 : ∀ c s, oracle.compileRes c s = none)
    (h2 : ∀ c s, oracle.runRes c s = none)
    (h3 : ∀ s, oracle.runUnboundRes s = none)
    (h4 : oracle.warmupCompileRes = none)
    (h5 : oracle.warmupRunRes = none) :
    (createSnapshot oracle scripts warmup).1
      = snapshotCanonicalTrace scripts (warmup.getD "")
    ∧ SnapEvent.compileWarmupEv SnapCtx.defaultCtx ∉ (createSnapshot oracle scripts warmup).1
    ∧ SnapEvent.runWarmupEv SnapCtx.defaultCtx ∉ (createSnapshot oracle scripts warmup).1 := by
  have htrace : (createSnapshot oracle scripts warmup).1
      = snapshotCanonicalTrace scripts (warmup.getD "") := by
    have hrun := snapshotRunScripts_ok oracle h1 h2 h3 scripts
    unfold createSnapshot snapshotBody
    rw [hrun]
    by_cases hw : (warmup.getD "").length ≠ 0 <;>
      by_cases hb : oracle.blobSize = 0 <;>
        simp [hw, hb, h4, h5, snapshotCanonicalTrace]
  refine ⟨htrace, ?_, ?_⟩
  · rw [htrace]
    exact (warmupDefault_not_mem_canonical scripts (warmup.getD "")).1
  · rw [htrace]
    exact (warmupDefault_not_mem_canonical scripts (warmup.getD "")).2

/-- Witness for C5 at concrete inputs: two scripts and a non-empty warmup
source, with an oracle where nothing throws. -/
theorem c5_witness :
    (createSnapshot
        ⟨fun _ _ => none, fun _ _ => none, fun _ => none, none, none, 5⟩ [0, 1] (some "w")).1
      = snapshotCanonicalTrace [0, 1] "w"
    ∧ SnapEvent.compileWarmupEv SnapCtx.defaultCtx
      ∉ (createSnapshot
          ⟨fun _ _ => none, fun _ _ => none, fun _ => none, none, none, 5⟩ [0, 1] (some "w")).1 :=
  ⟨(c5_snapshot_script_order
      ⟨fun _ _ => none, fun _ _ => none, fun _ => none, none, none, 5⟩ [0, 1] (some "w")
      (fun _ _ => rfl) (fun _ _ => rfl) (fun _ => rfl) rfl rfl).1,
   (c5_snapshot_script_order
      ⟨fun _ _ => none, fun _ _ => none, fun _ => none, none, none, 5⟩ [0, 1] (some "w")
      (fun _ _ => rfl) (fun _ _ => rfl) (fun _ => rfl) rfl rfl).2.1⟩

/-- Claim C6: a throw from any script compiled or executed during
`CreateSnapshot` aborts the build (the remaining scripts never run) and the
caller receives the typed error carrying a copy of the thrown value; with no
throw, a zero-length serialized image is the defined "Failure creating
snapshot" error, and otherwise the serialized image is returned as a
caller-owned buffer. -/
theorem c6_snapshot_error_paths (oracle : SnapshotOracle) (scripts : List Nat)
    (warmup : Option String) :
    (∀ t, (snapshotBody oracle scripts (warmup.getD "")).2 = some t →
      (createSnapshot oracle scripts warmup).2 = SnapResult.threw t)
    ∧ ((snapshotBody oracle scripts (warmup.getD "")).2 = none → oracle.blobSize = 0 →
      (createSnapshot oracle scripts warmup).2
        = SnapResult.genericError "Failure creating snapshot")
    ∧ ((snapshotBody oracle scripts (warmup.getD "")).2 = none → oracle.blobSize ≠ 0 →
      (createSnapshot oracle scripts warmup).2 = SnapResult.okBuffer oracle.blobSize)
    ∧ (∀ s rest ev t, snapshotScriptStep oracle s = (ev, some t) →
      snapshotRunScripts oracle (s :: rest) = (ev, some t)) := by
  refine ⟨?_, ?_, ?_, ?_⟩
  · intro t ht
    rcases hbd : snapshotBody oracle scripts (warmup.getD "") with ⟨ev, err⟩
    rw [hbd] at ht
    simp at ht
    subst ht
    unfold createSnapshot
    rw [hbd]
    simp [copyIfPrimitiveOrError]
  · intro hnone hb
    rcases hbd : snapshotBody oracle scripts (warmup.getD "") with ⟨ev, err⟩
    rw [hbd] at hnone
    simp at hnone
    subst hnone
    unfold createSnapshot
    rw [hbd]
    simp [hb]
  · intro hnone hb
    rcases hbd : snapshotBody oracle scripts (warmup.getD "") with ⟨ev, err⟩
    rw [hbd] at hnone
    simp at hnone
    subst hnone
    unfold createSnapshot
    rw [hbd]
    simp [hb]
  · intro s rest ev t h
    simp [snapshotRunScripts, h]

/-- Witness for C6 at concrete inputs: a throwing first script yields the
re-thrown copy and prevents the second script from running, a zero-length
image yields the defined error, and a non-empty image is returned. -/
theorem c6_witness :
    (createSnapshot
        ⟨fun _ _ => some 42, fun _ _ => none, fun _ => none, none, none, 7⟩ [0] none).2
      = SnapResult.threw 42
    ∧ (createSnapshot
        ⟨fun _ _ => none, fun _ _ => none, fun _ => none, none, none, 0⟩ [0] none).2
      = SnapResult.genericError "Failure creating snapshot"
    ∧ (createSnapshot
        ⟨fun _ _ => none, fun _ _ => none, fun _ => none, none, none, 7⟩ [0] none).2
      = SnapResult.okBuffer 7
    ∧ snapshotRunScripts
        ⟨fun _ _ => some 42, fun _ _ => none, fun _ => none, none, none, 7⟩ [0, 1]
      = ([SnapEvent.compileScriptEv SnapCtx.defaultCtx 0], some 42) :=
  ⟨(c6_snapshot_error_paths
      ⟨fun _ _ => some 42, fun _ _ => none, fun _ => none, none, none, 7⟩ [0] none).1 42 rfl,
   (c6_snapshot_error_paths
      ⟨fun _ _ => none, fun _ _ => none, fun _ => none, none, none, 0⟩ [0] none).2.1 rfl rfl,
   (c6_snapshot_error_paths
      ⟨fun _ _ => none, fun _ _ => none, fun _ => none, none, none, 7⟩ [0] none).2.2.1 rfl
     (by decide),
   (c6_snapshot_error_paths
      ⟨fun _ _ => some 42, fun _ _ => none, fun _ => none, none, none, 7⟩ [0] none).2.2.2 0 [1]
     [SnapEvent.compileScriptEv SnapCtx.defaultCtx 0] 42 rfl⟩

end Ivm
